import Mathlib

/-!
Shallow embedding of the Sudobility web service worker (sw.js) and the
service-worker registration controller (src/sw/register.ts), with theorems
checking the specification's claims about them.
-/

namespace DiWeb

/-! ## Cache namespace constants (sw.js lines 6-29) -/

def CACHE_VERSION : String := "v1"

def STATIC_CACHE : String := "sudobility-static-" ++ CACHE_VERSION

def DYNAMIC_CACHE : String := "sudobility-dynamic-" ++ CACHE_VERSION

def IMAGE_CACHE : String := "sudobility-images-" ++ CACHE_VERSION

/-- TTL per cache type, in milliseconds (sw.js CACHE_TTL).  A name outside
the table yields none, modelling the absent/falsy lookup in the source. -/
def CACHE_TTL (name : String) : Option Nat :=
  if name = STATIC_CACHE then some (7 * 24 * 60 * 60 * 1000)
  else if name = DYNAMIC_CACHE then some (24 * 60 * 60 * 1000)
  else if name = IMAGE_CACHE then some (30 * 24 * 60 * 60 * 1000)
  else none

/-- Cache size limits (sw.js CACHE_LIMITS). -/
def CACHE_LIMITS (name : String) : Option Nat :=
  if name = STATIC_CACHE then some 100
  else if name = DYNAMIC_CACHE then some 50
  else if name = IMAGE_CACHE then some 30
  else none

/-! ## Eviction: trimCache (sw.js lines 68-75)

A cache namespace is modelled as the list of its keys in insertion order,
oldest first, exactly what cache.keys() enumerates.  Each recursive pass
re-reads the keys (here: the list after the head deletion) and deletes
keys[0], the oldest entry, until the count is within the bound. -/

def trimCache {α : Type} (keys : List α) (maxItems : Nat) : List α :=
  if keys.length > maxItems then
    trimCache keys.tail maxItems
  else
    keys
termination_by keys.length
decreasing_by
  cases keys with
  | nil => simp at *
  | cons a t => simp

/-- One-step unfolding equation for trimCache. -/
theorem trimCache_unfold {α : Type} (keys : List α) (maxItems : Nat) :
    trimCache keys maxItems =
      if keys.length > maxItems then trimCache keys.tail maxItems else keys := by
  rw [trimCache]

/-- Closed form: trimming keeps exactly the suffix of length at most maxItems,
dropping the oldest entries from the front. -/
theorem trimCache_eq_drop {α : Type} (keys : List α) (maxItems : Nat) :
    trimCache keys maxItems = keys.drop (keys.length - maxItems) := by
  induction keys with
  | nil => rw [trimCache_unfold]; simp
  | cons a t ih =>
      rw [trimCache_unfold]
      by_cases h : (a :: t).length > maxItems
      · rw [if_pos h, List.tail_cons, ih]
        have h1 : (a :: t).length - maxItems = (t.length - maxItems) + 1 := by
          simp only [List.length_cons] at *
          omega
        rw [h1, List.drop_succ_cons]
      · rw [if_neg h]
        have h1 : (a :: t).length - maxItems = 0 := by
          simp only [List.length_cons] at *
          omega
        rw [h1, List.drop_zero]

/-- C1: for a namespace left with more than maxEntries entries, trimCache
terminates with exactly maxEntries entries, and the survivors are exactly
the maxEntries most-recently-inserted entries, i.e. the final suffix of the
insertion-ordered key list. -/
theorem trimCache_fifo {α : Type} (keys : List α) (maxEntries : Nat)
    (h : keys.length > maxEntries) :
    (trimCache keys maxEntries).length = maxEntries ∧
    trimCache keys maxEntries = keys.drop (keys.length - maxEntries) := by
  refine ⟨?_, trimCache_eq_drop keys maxEntries⟩
  rw [trimCache_eq_drop, List.length_drop]
  omega

/-- Witness for C1 at a concrete overflowing namespace: six inserts with a
bound of four keep exactly the last four. -/
theorem trimCache_fifo_witness :
    ([0, 1, 2, 3, 4, 5] : List Nat).length > 4 ∧
    (trimCache ([0, 1, 2, 3, 4, 5] : List Nat) 4).length = 4 ∧
    trimCache ([0, 1, 2, 3, 4, 5] : List Nat) 4 =
      ([0, 1, 2, 3, 4, 5] : List Nat).drop (([0, 1, 2, 3, 4, 5] : List Nat).length - 4) := by
  refine ⟨by decide, trimCache_fifo [0, 1, 2, 3, 4, 5] 4 (by decide)⟩

/-! ## Expiry: isExpired (sw.js lines 78-86)

A stored response is modelled by its ok flag (status in the 2xx range), its
body bytes, and the optional date header timestamp (milliseconds). -/

structure Response where
  ok : Bool
  body : String
  dateHeader : Option Int
deriving DecidableEq, Repr

/-- Check whether a cached response has expired (sw.js isExpired): no TTL for
the cache name or no date header means not expired; otherwise expired exactly
when now minus the date header strictly exceeds the TTL. -/
def isExpired (now : Int) (response : Response) (cacheName : String) : Bool :=
  match CACHE_TTL cacheName with
  | none => false
  | some maxAge =>
      match response.dateHeader with
      | none => false
      | some d => decide (now - d > (maxAge : Int))

/-- C2: for a namespace with TTL ttl, an entry with age metadata is expired
iff its age is strictly greater than ttl; at age = ttl it is not expired, at
age = ttl + 1 it is; an entry with no age metadata is never expired. -/
theorem isExpired_correct (now d : Int) (ok : Bool) (b : String)
    (cacheName : String) (ttl : Nat) (h : CACHE_TTL cacheName = some ttl) :
    (isExpired now ⟨ok, b, some d⟩ cacheName = true ↔ now - d > (ttl : Int)) ∧
    isExpired (d + ttl) ⟨ok, b, some d⟩ cacheName = false ∧
    isExpired (d + ttl + 1) ⟨ok, b, some d⟩ cacheName = true ∧
    isExpired now ⟨ok, b, none⟩ cacheName = false := by
  refine ⟨?_, ?_, ?_, ?_⟩
  · simp [isExpired, h]
  · simp [isExpired, h]
  · simp only [isExpired, h, decide_eq_true_iff]
    omega
  · simp [isExpired, h]

/-- Witness for C2 in the dynamic namespace, whose TTL is one day. -/
theorem isExpired_correct_witness :
    CACHE_TTL DYNAMIC_CACHE = some 86400000 ∧
    ((isExpired 1000 ⟨true, "b", some 0⟩ DYNAMIC_CACHE = true ↔
        (1000 : Int) - 0 > (86400000 : Int)) ∧
      isExpired (0 + 86400000) ⟨true, "b", some 0⟩ DYNAMIC_CACHE = false ∧
      isExpired (0 + 86400000 + 1) ⟨true, "b", some 0⟩ DYNAMIC_CACHE = true ∧
      isExpired 1000 ⟨true, "b", none⟩ DYNAMIC_CACHE = false) := by
  refine ⟨by decide, isExpired_correct 1000 0 true "b" DYNAMIC_CACHE 86400000 (by decide)⟩

/-! ## Strategy engine (sw.js lines 156-194)

One strategy invocation is modelled by its environment: the cached entry
for the request (cache.match(request)), the network outcome for the request
(fetch(request): Except.ok a response, Except.error a rejected fetch), the
stored root document (caches.match of the root path), and whether the
request's accept header includes text/html.  The result records the value
the strategy resolves with (or the error it propagates), what it put into
the cache, and whether it touched the network. -/

instance exceptDecEq {ε α : Type} [DecidableEq ε] [DecidableEq α] :
    DecidableEq (Except ε α) := fun a b =>
  match a, b with
  | Except.ok x, Except.ok y =>
      if h : x = y then Decidable.isTrue (by rw [h])
      else Decidable.isFalse (fun hc => h (Except.ok.inj hc))
  | Except.error x, Except.error y =>
      if h : x = y then Decidable.isTrue (by rw [h])
      else Decidable.isFalse (fun hc => h (Except.error.inj hc))
  | Except.ok _, Except.error _ => Decidable.isFalse (fun hc => Except.noConfusion hc)
  | Except.error _, Except.ok _ => Decidable.isFalse (fun hc => Except.noConfusion hc)

structure StrategyOutcome where
  result : Except Unit (Option Response)
  put : Option Response
  fetched : Bool
deriving DecidableEq, Repr

/-- Body of the try-block of cacheFirst (sw.js lines 164-173): fetch, store
a clone of any ok response, return it; on rejection fall back to the stale
cached entry if any, else to the stored root document lookup. -/
def cacheFirstFetch (cached : Option Response) (network : Except Unit Response)
    (rootCached : Option Response) : StrategyOutcome :=
  match network with
  | Except.ok response =>
      { result := Except.ok (some response),
        put := if response.ok then some response else none,
        fetched := true }
  | Except.error _ =>
      match cached with
      | some c => { result := Except.ok (some c), put := none, fetched := true }
      | none => { result := Except.ok rootCached, put := none, fetched := true }

/-- Cache First strategy with TTL expiration (sw.js cacheFirst).  The
acceptsHtml flag of the request is carried but, as in the source, never
consulted by this strategy. -/
def cacheFirst (acceptsHtml : Bool) (now : Int) (cacheName : String)
    (cached : Option Response) (network : Except Unit Response)
    (rootCached : Option Response) : StrategyOutcome :=
  let _ := acceptsHtml
  match cached with
  | some c =>
      if isExpired now c cacheName then cacheFirstFetch cached network rootCached
      else { result := Except.ok (some c), put := none, fetched := false }
  | none => cacheFirstFetch cached network rootCached

/-- Network First strategy (sw.js networkFirst): fetch, store a clone of any
ok response, return it; on rejection return the cached entry if present, else
the stored root document lookup for HTML-accepting requests, else rethrow. -/
def networkFirst (acceptsHtml : Bool) (cached : Option Response)
    (network : Except Unit Response) (rootCached : Option Response) :
    StrategyOutcome :=
  match network with
  | Except.ok response =>
      { result := Except.ok (some response),
        put := if response.ok then some response else none,
        fetched := true }
  | Except.error e =>
      match cached with
      | some c => { result := Except.ok (some c), put := none, fetched := true }
      | none =>
          if acceptsHtml then
            { result := Except.ok rootCached, put := none, fetched := true }
          else
            { result := Except.error e, put := none, fetched := true }

/-- C3 counterexample: a non-navigation request (accept header without
text/html) with no cached entry and a failing network does not propagate the
failure, contrary to the claim; cacheFirst resolves with the stored root
document lookup instead. -/
theorem cacheFirst_claim_counterexample :
    (cacheFirst false 0 STATIC_CACHE none (Except.error ())
        (some ⟨true, "root", none⟩)).result =
      Except.ok (some ⟨true, "root", none⟩) ∧
    (cacheFirst false 0 STATIC_CACHE none (Except.error ())
        (some ⟨true, "root", none⟩)).result ≠ Except.error () := by
  decide

/-- C3 amended: cache-first returns a non-expired cached entry without any
network fetch; otherwise it fetches, stores a clone of any 2xx response and
returns it; on network failure it returns the stale cached entry if one
exists, else the stored root-document fallback lookup for every request
(navigation or not), and never propagates the failure. -/
theorem cacheFirst_correct (acceptsHtml : Bool) (now : Int) (cacheName : String)
    (cFresh cStale r : Response) (rootCached : Option Response)
    (network : Except Unit Response)
    (hfresh : isExpired now cFresh cacheName = false)
    (hstale : isExpired now cStale cacheName = true) :
    cacheFirst acceptsHtml now cacheName (some cFresh) network rootCached =
      { result := Except.ok (some cFresh), put := none, fetched := false } ∧
    cacheFirst acceptsHtml now cacheName none (Except.ok r) rootCached =
      { result := Except.ok (some r),
        put := if r.ok then some r else none, fetched := true } ∧
    cacheFirst acceptsHtml now cacheName (some cStale) (Except.ok r) rootCached =
      { result := Except.ok (some r),
        put := if r.ok then some r else none, fetched := true } ∧
    cacheFirst acceptsHtml now cacheName (some cStale) (Except.error ()) rootCached =
      { result := Except.ok (some cStale), put := none, fetched := true } ∧
    cacheFirst acceptsHtml now cacheName none (Except.error ()) rootCached =
      { result := Except.ok rootCached, put := none, fetched := true } := by
  refine ⟨?_, rfl, ?_, ?_, rfl⟩
  · simp [cacheFirst, hfresh]
  · simp [cacheFirst, hstale, cacheFirstFetch]
  · simp [cacheFirst, hstale, cacheFirstFetch]

/-- Witness for the amended C3 at concrete inputs in the static namespace:
a fresh entry aged zero, a stale entry aged TTL plus one hour. -/
theorem cacheFirst_correct_witness :
    isExpired 700000000000 ⟨true, "fresh", some 700000000000⟩ STATIC_CACHE = false ∧
    isExpired 700000000000 ⟨true, "stale", some (700000000000 - 604800000 - 3600000)⟩
      STATIC_CACHE = true ∧
    cacheFirst false 700000000000 STATIC_CACHE
        (some ⟨true, "fresh", some 700000000000⟩) (Except.ok ⟨true, "net", none⟩)
        (some ⟨true, "root", none⟩) =
      { result := Except.ok (some ⟨true, "fresh", some 700000000000⟩),
        put := none, fetched := false } ∧
    cacheFirst false 700000000000 STATIC_CACHE none (Except.ok ⟨true, "net", none⟩)
        (some ⟨true, "root", none⟩) =
      { result := Except.ok (some ⟨true, "net", none⟩),
        put := if (true : Bool) then some ⟨true, "net", none⟩ else none,
        fetched := true } := by
  have h := cacheFirst_correct false 700000000000 STATIC_CACHE
    ⟨true, "fresh", some 700000000000⟩
    ⟨true, "stale", some (700000000000 - 604800000 - 3600000)⟩
    ⟨true, "net", none⟩ (some ⟨true, "root", none⟩) (Except.ok ⟨true, "net", none⟩)
    (by decide) (by decide)
  exact ⟨by decide, by decide, h.1, h.2.1⟩

/-- C4: network-first fetches first and returns the network response, storing
a clone exactly when it is 2xx; on network failure it returns the cached entry
if present (in particular a previously cached root document when the network
is down), else the root-document fallback lookup for HTML-accepting requests,
else it rethrows the failure. -/
theorem networkFirst_correct (acceptsHtml : Bool) (c r : Response)
    (cached rootCached : Option Response) :
    networkFirst acceptsHtml cached (Except.ok r) rootCached =
      { result := Except.ok (some r),
        put := if r.ok then some r else none, fetched := true } ∧
    networkFirst acceptsHtml (some c) (Except.error ()) rootCached =
      { result := Except.ok (some c), put := none, fetched := true } ∧
    networkFirst true none (Except.error ()) rootCached =
      { result := Except.ok rootCached, put := none, fetched := true } ∧
    networkFirst false none (Except.error ()) rootCached =
      { result := Except.error (), put := none, fetched := true } := by
  refine ⟨?_, rfl, rfl, rfl⟩
  cases cached <;> rfl

/-! ## Registration controller (src/sw/register.ts)

The lifecycle states of ServiceWorkerState, the retry loop of
attemptRegistration, the guard sequence of registerServiceWorker and the
unregister helper.  The platform register primitive is modelled by a
function from the attempt number to whether that call succeeds; the trace
records the emitted states, how many times the primitive was called, and
the backoff delays scheduled between attempts. -/

inductive SWState where
  | registering
  | registered
  | updateAvailable
  | error
  | unsupported
  | insecureContext
deriving DecidableEq, Repr

def DEFAULT_MAX_RETRIES : Nat := 3

def RETRY_BASE_DELAY_MS : Nat := 1000

def UPDATE_CHECK_INTERVAL_MS : Nat := 24 * 60 * 60 * 1000

structure AttemptTrace where
  states : List SWState
  registerCalls : Nat
  delays : List Nat
deriving DecidableEq, Repr

/-- Retry loop of register.ts attemptRegistration: call the register
primitive; on success emit registered; on failure emit error and, while the
attempt number is below maxRetries, schedule a retry after
RETRY_BASE_DELAY_MS * 2 ^ attempt milliseconds. -/
def attemptRegistration (succeeds : Nat → Bool) (attempt maxRetries : Nat) :
    AttemptTrace :=
  if succeeds attempt then
    { states := [SWState.registered], registerCalls := 1, delays := [] }
  else
    if attempt < maxRetries then
      let delay := RETRY_BASE_DELAY_MS * 2 ^ attempt
      let rest := attemptRegistration succeeds (attempt + 1) maxRetries
      { states := SWState.error :: rest.states,
        registerCalls := 1 + rest.registerCalls,
        delays := delay :: rest.delays }
    else
      { states := [SWState.error], registerCalls := 1, delays := [] }
termination_by maxRetries - attempt
decreasing_by omega

/-- One-step unfolding equation for attemptRegistration. -/
theorem attemptRegistration_unfold (succeeds : Nat → Bool) (attempt maxRetries : Nat) :
    attemptRegistration succeeds attempt maxRetries =
      if succeeds attempt then
        { states := [SWState.registered], registerCalls := 1, delays := [] }
      else
        if attempt < maxRetries then
          { states := SWState.error ::
              (attemptRegistration succeeds (attempt + 1) maxRetries).states,
            registerCalls :=
              1 + (attemptRegistration succeeds (attempt + 1) maxRetries).registerCalls,
            delays := RETRY_BASE_DELAY_MS * 2 ^ attempt ::
              (attemptRegistration succeeds (attempt + 1) maxRetries).delays }
        else
          { states := [SWState.error], registerCalls := 1, delays := [] } := by
  rw [attemptRegistration]

/-- Load handler of registerServiceWorker (register.ts lines 175-178): emit
registering once, then start the attempt loop at attempt zero. -/
def runRegistration (succeeds : Nat → Bool) (maxRetries : Nat) : AttemptTrace :=
  let rest := attemptRegistration succeeds 0 maxRetries
  { states := SWState.registering :: rest.states,
    registerCalls := rest.registerCalls,
    delays := rest.delays }

/-- C5: with maxRetries = 2 and a register primitive failing on the first two
calls and succeeding on the third, the emitted state sequence is exactly
[registering, error, error, registered], the primitive is called exactly
three times, and the scheduled retry delays are exactly 1000 ms then 2000 ms. -/
theorem registration_scenario_backoff :
    runRegistration (fun attempt => decide (2 ≤ attempt)) 2 =
      { states := [SWState.registering, SWState.error, SWState.error,
          SWState.registered],
        registerCalls := 3,
        delays := [1000, 2000] } := by
  rw [runRegistration, attemptRegistration_unfold, attemptRegistration_unfold,
    attemptRegistration_unfold]
  norm_num [RETRY_BASE_DELAY_MS]

/-! ## Registration guards (register.ts lines 137-179) -/

structure Env where
  prodEnv : Bool
  hasServiceWorker : Bool
  hasWindow : Bool
  protocol : String
  hostname : String
deriving DecidableEq, Repr

structure GuardOutcome where
  states : List SWState
  proceeds : Bool
deriving DecidableEq, Repr

/-- Guard sequence of registerServiceWorker: enabled flag (forceEnable with
the production flag as default), worker capability, then secure context;
only when all pass does the load listener (and hence any register call) get
installed, recorded here as proceeds. -/
def registerServiceWorkerGuards (forceEnable : Option Bool) (env : Env) :
    GuardOutcome :=
  let isEnabled := forceEnable.getD env.prodEnv
  if !isEnabled then
    { states := [], proceeds := false }
  else if !env.hasServiceWorker then
    { states := [SWState.unsupported], proceeds := false }
  else if env.hasWindow && env.protocol != "https:" &&
      env.hostname != "localhost" && env.hostname != "127.0.0.1" then
    { states := [SWState.insecureContext], proceeds := false }
  else
    { states := [], proceeds := true }

/-- C6: the three preconditions are checked in order and short-circuit: a
false enabled flag yields no state and no registration; a missing worker
capability emits only unsupported; HTTP on a non-loopback host emits exactly
[insecure-context] and the register primitive is never reached. -/
theorem registerServiceWorkerGuards_correct (envA envB envC : Env)
    (feA feB feC : Option Bool)
    (hA : feA.getD envA.prodEnv = false)
    (hB : feB.getD envB.prodEnv = true)
    (hBsw : envB.hasServiceWorker = false)
    (hC : feC.getD envC.prodEnv = true)
    (hCsw : envC.hasServiceWorker = true)
    (hCw : envC.hasWindow = true)
    (hCp : envC.protocol ≠ "https:")
    (hCh1 : envC.hostname ≠ "localhost")
    (hCh2 : envC.hostname ≠ "127.0.0.1") :
    registerServiceWorkerGuards feA envA = { states := [], proceeds := false } ∧
    registerServiceWorkerGuards feB envB =
      { states := [SWState.unsupported], proceeds := false } ∧
    registerServiceWorkerGuards feC envC =
      { states := [SWState.insecureContext], proceeds := false } := by
  refine ⟨?_, ?_, ?_⟩
  · simp [registerServiceWorkerGuards, hA]
  · simp [registerServiceWorkerGuards, hB, hBsw]
  · simp [registerServiceWorkerGuards, hC, hCsw, hCw, hCp, hCh1, hCh2]

/-- Witness for C6: disabled build, production build without worker support,
and a production page on plain HTTP at example.com. -/
theorem registerServiceWorkerGuards_correct_witness :
    (Option.none.getD false = false ∧
      Option.none.getD true = true ∧
      (Env.mk true false true "https:" "example.com").hasServiceWorker = false ∧
      Option.none.getD true = true ∧
      (Env.mk true true true "http:" "example.com").hasServiceWorker = true ∧
      (Env.mk true true true "http:" "example.com").hasWindow = true ∧
      (Env.mk true true true "http:" "example.com").protocol ≠ "https:" ∧
      (Env.mk true true true "http:" "example.com").hostname ≠ "localhost" ∧
      (Env.mk true true true "http:" "example.com").hostname ≠ "127.0.0.1") ∧
    registerServiceWorkerGuards Option.none (Env.mk false true true "https:" "example.com") =
      { states := [], proceeds := false } ∧
    registerServiceWorkerGuards Option.none (Env.mk true false true "https:" "example.com") =
      { states := [SWState.unsupported], proceeds := false } ∧
    registerServiceWorkerGuards Option.none (Env.mk true true true "http:" "example.com") =
      { states := [SWState.insecureContext], proceeds := false } := by
  refine ⟨⟨by decide, by decide, by decide, by decide, by decide, by decide,
    by decide, by decide, by decide⟩, ?_⟩
  exact registerServiceWorkerGuards_correct
    (Env.mk false true true "https:" "example.com")
    (Env.mk true false true "https:" "example.com")
    (Env.mk true true true "http:" "example.com")
    Option.none Option.none Option.none
    (by decide) (by decide) (by decide) (by decide) (by decide) (by decide)
    (by decide) (by decide) (by decide)

/-! ## Unregistration (register.ts lines 260-266) -/

/-- unregisterServiceWorker: false when the worker capability is absent,
otherwise the result reported by the platform unregistration call. -/
def unregisterServiceWorker (hasServiceWorker : Bool) (platformResult : Bool) :
    Bool :=
  if !hasServiceWorker then false else platformResult

/-- C7 counterexample: with the capability present but the platform
unregistration call reporting false (nothing was registered), the function
resolves to false, not true as the claim states. -/
theorem unregisterServiceWorker_claim_counterexample :
    unregisterServiceWorker true false = false ∧
    unregisterServiceWorker true false ≠ true := by
  decide

/-- C7 amended: unregisterServiceWorker resolves to false when the worker
capability is absent, and otherwise to exactly the result reported by the
platform unregistration call. -/
theorem unregisterServiceWorker_correct (platformResult : Bool) :
    unregisterServiceWorker false platformResult = false ∧
    unregisterServiceWorker true platformResult = platformResult := by
  cases platformResult <;> exact ⟨rfl, rfl⟩

/-! ## Activate-time cache cleanup (sw.js lines 42-65)

strStartsWith embeds the JavaScript string startsWith test as a character
prefix test, so it is evaluable by the kernel. -/

def strStartsWith (s p : String) : Bool := p.data.isPrefixOf s.data

def CURRENT_CACHES : List String := [STATIC_CACHE, DYNAMIC_CACHE, IMAGE_CACHE]

def LEGACY_PREFIXES : List String := ["web3mail-", "shapeshyft-"]

/-- Filter of the activate listener: delete old sudobility caches not in the
current set, and legacy app-specific caches. -/
def shouldDeleteCache (name : String) : Bool :=
  if strStartsWith name "sudobility-" && !(CURRENT_CACHES.contains name) then
    true
  else
    LEGACY_PREFIXES.any (fun p => strStartsWith name p)

/-- Names deleted by one run of the activate listener over the enumerated
cache names. -/
def activateDeletions (cacheNames : List String) : List String :=
  cacheNames.filter shouldDeleteCache

theorem shouldDeleteCache_eq (name : String) :
    shouldDeleteCache name =
      (strStartsWith name "sudobility-" && !(CURRENT_CACHES.contains name) ||
        LEGACY_PREFIXES.any (fun p => strStartsWith name p)) := by
  unfold shouldDeleteCache
  cases h : (strStartsWith name "sudobility-" && !(CURRENT_CACHES.contains name)) <;>
    simp [h]

/-- C8: the activate cleanup deletes a namespace iff it is a
sudobility-family name outside the three current-version names or matches a
legacy prefix; consequently on a cache set containing only current-version
namespaces a repeat run performs zero deletions. -/
theorem activate_cleanup (name : String) (cacheNames : List String)
    (hclean : ∀ n ∈ cacheNames, n ∈ CURRENT_CACHES) :
    (shouldDeleteCache name = true ↔
      ((strStartsWith name "sudobility-" = true ∧ name ∉ CURRENT_CACHES) ∨
        ∃ p ∈ LEGACY_PREFIXES, strStartsWith name p = true)) ∧
    activateDeletions cacheNames = [] := by
  constructor
  · rw [shouldDeleteCache_eq]
    have hc : (!(CURRENT_CACHES.contains name)) = true ↔ name ∉ CURRENT_CACHES := by
      simp only [Bool.not_eq_true']
      rw [← Bool.not_eq_true]
      exact not_congr List.elem_iff
    rw [Bool.or_eq_true, Bool.and_eq_true, hc, List.any_eq_true]
  · unfold activateDeletions
    rw [List.filter_eq_nil_iff]
    intro a ha
    have hmem := hclean a ha
    simp only [CURRENT_CACHES, List.mem_cons, List.not_mem_nil, or_false] at hmem
    rcases hmem with h | h | h <;> subst h <;> decide

/-- Witness for C8: a legacy cache name is deleted, and a run over exactly
the three current-version namespaces deletes nothing. -/
theorem activate_cleanup_witness :
    (∀ n ∈ CURRENT_CACHES, n ∈ CURRENT_CACHES) ∧
    ((shouldDeleteCache "web3mail-cache" = true ↔
        ((strStartsWith "web3mail-cache" "sudobility-" = true ∧
            "web3mail-cache" ∉ CURRENT_CACHES) ∨
          ∃ p ∈ LEGACY_PREFIXES, strStartsWith "web3mail-cache" p = true)) ∧
      activateDeletions CURRENT_CACHES = []) := by
  exact ⟨fun n h => h,
    activate_cleanup "web3mail-cache" CURRENT_CACHES (fun n h => h)⟩

/-! ## Background sync (sw.js lines 219-237)

The dynamic namespace is modelled as the list of its recorded requests in
enumeration order; the replay outcome of one request is given by fetchOk.
doBackgroundSync iterates over the snapshot of cache.keys() and, for each
request, deletes it from the live cache when its replay fetch succeeds and
leaves it in place when it fails. -/

def syncStep {α : Type} [DecidableEq α] (fetchOk : α → Bool)
    (cacheContents : List α) (r : α) : List α :=
  if fetchOk r then cacheContents.erase r else cacheContents

def doBackgroundSync {α : Type} [DecidableEq α] (fetchOk : α → Bool)
    (cacheContents : List α) : List α :=
  cacheContents.foldl (syncStep fetchOk) cacheContents

/-- Sync listener (sw.js lines 219-223): only the fixed background-sync tag
triggers the replay. -/
def syncListener {α : Type} [DecidableEq α] (tag : String) (fetchOk : α → Bool)
    (cacheContents : List α) : List α :=
  if tag = "background-sync" then doBackgroundSync fetchOk cacheContents
  else cacheContents

theorem foldl_syncStep {α : Type} [DecidableEq α] (fetchOk : α → Bool) :
    ∀ (snapshot s : List α), s.Nodup →
      snapshot.foldl (syncStep fetchOk) s =
        s.filter (fun x => !(fetchOk x && snapshot.contains x)) := by
  intro snapshot
  induction snapshot with
  | nil =>
      intro s _
      simp
  | cons r rest ih =>
      intro s hnd
      rw [List.foldl_cons]
      cases hf : fetchOk r with
      | false =>
          have hstep : syncStep fetchOk s r = s := by simp [syncStep, hf]
          rw [hstep, ih s hnd]
          apply List.filter_congr
          intro x _
          by_cases hx : x = r
          · subst hx
            simp [hf]
          · simp [List.contains_cons, hx]
      | true =>
          have hstep : syncStep fetchOk s r = s.filter (fun x => x != r) := by
            simp only [syncStep, hf, if_true]
            exact hnd.erase_eq_filter r
          rw [hstep, ih _ (hnd.filter _)]
          rw [List.filter_filter]
          apply List.filter_congr
          intro x _
          by_cases hx : x = r
          · subst hx
            simp [hf]
          · simp [List.contains_cons, hx]

/-- C9: on the fixed background-sync tag, the replay leaves exactly the
records whose replay fetch failed, in their original enumeration order;
every record whose replay succeeded has been deleted. -/
theorem backgroundSync_correct {α : Type} [DecidableEq α] (tag : String)
    (fetchOk : α → Bool) (cacheContents : List α)
    (htag : tag = "background-sync") (hnd : cacheContents.Nodup) :
    syncListener tag fetchOk cacheContents =
      cacheContents.filter (fun r => !(fetchOk r)) := by
  rw [syncListener, if_pos htag]
  rw [doBackgroundSync, foldl_syncStep fetchOk cacheContents cacheContents hnd]
  apply List.filter_congr
  intro x hx
  have hc : cacheContents.contains x = true := List.elem_iff.mpr hx
  rw [hc, Bool.and_true]

/-- Witness for C9: four pending requests of which the even-numbered ones
replay successfully; exactly the odd-numbered ones survive, in order. -/
theorem backgroundSync_correct_witness :
    "background-sync" = "background-sync" ∧
    ([0, 1, 2, 3] : List Nat).Nodup ∧
    syncListener "background-sync" (fun n => decide (n % 2 = 0))
        ([0, 1, 2, 3] : List Nat) =
      ([0, 1, 2, 3] : List Nat).filter (fun r => !(decide (r % 2 = 0))) := by
  exact ⟨rfl, by decide,
    backgroundSync_correct "background-sync" (fun n => decide (n % 2 = 0))
      [0, 1, 2, 3] rfl (by decide)⟩

/-! ## Notification click handler (sw.js lines 266-285)

A window client is its URL plus whether it exposes a focus method; the
handler input is the clicked action, the optional url field of the
notification payload data, the enumerated window clients, and whether the
openWindow capability exists. -/

structure WindowClient where
  url : String
  canFocus : Bool
deriving DecidableEq, Repr

inductive ClickEffect where
  | focusClient (c : WindowClient)
  | openWindow (url : String)
  | noEffect
deriving DecidableEq, Repr

structure ClickOutcome where
  closed : Bool
  effect : ClickEffect
deriving DecidableEq, Repr

/-- Loop over matchAll clients (sw.js lines 275-279): the first client whose
url equals the target and which has a focus method is focused. -/
def findClientToFocus (urlToOpen : String) : List WindowClient → Option WindowClient
  | [] => Option.none
  | c :: rest =>
      if c.url = urlToOpen && c.canFocus then some c
      else findClientToFocus urlToOpen rest

/-- Target URL of a click (sw.js line 271): the payload's url field when
present and non-empty (the JavaScript truthiness test of data?.url), else
the root path. -/
def clickTargetUrl (dataUrl : Option String) : String :=
  match dataUrl with
  | Option.none => "/"
  | some u => if u = "" then "/" else u

/-- Notification click handler: always close the notification; stop there
for the dismiss action; otherwise focus the first matching focusable client
for the target URL, or open a new window at it when openWindow exists. -/
def notificationClick (action : String) (dataUrl : Option String)
    (clients : List WindowClient) (hasOpenWindow : Bool) : ClickOutcome :=
  if action = "dismiss" then
    { closed := true, effect := ClickEffect.noEffect }
  else
    let urlToOpen := clickTargetUrl dataUrl
    match findClientToFocus urlToOpen clients with
    | some c => { closed := true, effect := ClickEffect.focusClient c }
    | Option.none =>
        if hasOpenWindow then
          { closed := true, effect := ClickEffect.openWindow urlToOpen }
        else
          { closed := true, effect := ClickEffect.noEffect }

theorem findClientToFocus_spec (urlToOpen : String) (clients : List WindowClient)
    (c : WindowClient) (h : findClientToFocus urlToOpen clients = some c) :
    c.url = urlToOpen ∧ c.canFocus = true := by
  induction clients with
  | nil => exact absurd h (by simp [findClientToFocus])
  | cons a rest ih =>
      rw [findClientToFocus] at h
      by_cases ha : (a.url = urlToOpen && a.canFocus) = true
      · rw [if_pos ha] at h
        cases h
        have := Bool.and_eq_true .. |>.mp ha
        exact ⟨of_decide_eq_true this.1, this.2⟩
      · rw [if_neg ha] at h
        exact ih h

/-- C10: a click whose action is not dismiss and whose payload carries no
target URL uses the root path as target: the handler focuses the first
window client whose URL is exactly the root path and which can be focused,
or opens a new window at the root path when no such client exists; the
notification is closed on every click, the dismiss action included. -/
theorem notificationClick_correct (action other : String)
    (dataUrl : Option String) (clients : List WindowClient)
    (hasOpenWindow : Bool) (c : WindowClient)
    (hact : action ≠ "dismiss") :
    (notificationClick other dataUrl clients hasOpenWindow).closed = true ∧
    clickTargetUrl Option.none = "/" ∧
    (findClientToFocus "/" clients = some c →
      notificationClick action Option.none clients hasOpenWindow =
        { closed := true, effect := ClickEffect.focusClient c } ∧
      c.url = "/" ∧ c.canFocus = true) ∧
    (findClientToFocus "/" clients = Option.none → hasOpenWindow = true →
      notificationClick action Option.none clients hasOpenWindow =
        { closed := true, effect := ClickEffect.openWindow "/" }) := by
  refine ⟨?_, rfl, ?_, ?_⟩
  · unfold notificationClick
    by_cases ho : other = "dismiss"
    · rw [if_pos ho]
    · rw [if_neg ho]
      cases hfind : findClientToFocus (clickTargetUrl dataUrl) clients
      · simp only [hfind]
        by_cases hw : hasOpenWindow = true
        · rw [if_pos hw]
        · rw [if_neg hw]
      · simp only [hfind]
  · intro hfind
    refine ⟨?_, findClientToFocus_spec "/" clients c hfind⟩
    unfold notificationClick
    rw [if_neg hact]
    simp only [clickTargetUrl] at hfind ⊢
    rw [hfind]
  · intro hfind hw
    unfold notificationClick
    rw [if_neg hact]
    simp only [clickTargetUrl] at hfind ⊢
    rw [hfind, if_pos hw]

/-- Witness for C10: an open-action click with no payload URL, one
non-focusable client at the root and one focusable client at the root;
the second client is focused and the notification closed, and a dismiss
click (the other slot) also closes the notification. -/
theorem notificationClick_correct_witness :
    ("open" : String) ≠ "dismiss" ∧
    ((notificationClick "dismiss" Option.none
        [WindowClient.mk "/" false, WindowClient.mk "/" true] true).closed = true ∧
      clickTargetUrl Option.none = "/" ∧
      (findClientToFocus "/" [WindowClient.mk "/" false, WindowClient.mk "/" true] =
          some (WindowClient.mk "/" true) →
        notificationClick "open" Option.none
            [WindowClient.mk "/" false, WindowClient.mk "/" true] true =
          { closed := true, effect := ClickEffect.focusClient (WindowClient.mk "/" true) } ∧
        (WindowClient.mk "/" true).url = "/" ∧ (WindowClient.mk "/" true).canFocus = true) ∧
      (findClientToFocus "/" [WindowClient.mk "/" false, WindowClient.mk "/" true] =
          Option.none → (true : Bool) = true →
        notificationClick "open" Option.none
            [WindowClient.mk "/" false, WindowClient.mk "/" true] true =
          { closed := true, effect := ClickEffect.openWindow "/" })) := by
  exact ⟨by decide,
    notificationClick_correct "open" "dismiss" Option.none
      [WindowClient.mk "/" false, WindowClient.mk "/" true] true
      (WindowClient.mk "/" true) (by decide)⟩

end DiWeb
